import Mathlib

/-!
# Verification of the gpui asset-cache / image pipeline excerpt

Shallow embedding of the code in `crates/gpui/src/asset_cache.rs`,
`crates/gpui/src/image_cache.rs`, `crates/gpui/src/elements/img.rs` and
`crates/gpui/src/svg_renderer.rs`, with theorems settling the spec claims.

Conventions:
* Rust `f32` pixel arithmetic (`Pixels`) is embedded as `ℚ`; the inputs of
  all concrete claims are small integers on which `f32` is exact.
* Machine integers (`u64` hashes, `i32` device pixels, HTTP status codes)
  are embedded as `ℕ`; overflow plays no role in the claims.
* `HashMap<K, V>` state is embedded as an association list `List (K × V)`
  with first-match lookup and replace-or-append insertion, matching the
  observable get/insert semantics of the Rust map.
* External capabilities (HTTP client, filesystem, the `image` crate's
  decoder, `resvg`'s parser and renderer) are fields of an explicit
  environment record, so a producer's control flow over them is explicit.
-/

namespace Gpui

/-! ## Association-list model of `HashMap` get/insert/entry-count -/

/-- First-match lookup, the model of `HashMap::get`. -/
def AssocMap.get {K V : Type} [DecidableEq K] (k : K) :
    List (K × V) → Option V
  | [] => none
  | (k', v) :: rest => if k' = k then some v else AssocMap.get k rest

/-- Replace-or-append insertion, the model of `HashMap::insert`
(last writer wins, at most one entry per key is kept). -/
def AssocMap.insert {K V : Type} [DecidableEq K] (k : K) (v : V) :
    List (K × V) → List (K × V)
  | [] => [(k, v)]
  | (k', v') :: rest =>
      if k' = k then (k, v) :: rest else (k', v') :: AssocMap.insert k v rest

/-- Number of entries stored under key `k`. -/
def AssocMap.countKey {K V : Type} [DecidableEq K] (k : K)
    (m : List (K × V)) : ℕ :=
  (m.filter fun e => e.1 = k).length

theorem AssocMap.get_insert_self {K V : Type} [DecidableEq K]
    (k : K) (v : V) (m : List (K × V)) :
    AssocMap.get k (AssocMap.insert k v m) = some v := by
  induction m with
  | nil => simp [AssocMap.get, AssocMap.insert]
  | cons e rest ih =>
      obtain ⟨k', v'⟩ := e
      by_cases h : k' = k <;> simp [AssocMap.get, AssocMap.insert, h, ih]

theorem AssocMap.get_insert_ne {K V : Type} [DecidableEq K]
    {k k' : K} (hne : k' ≠ k) (v : V) (m : List (K × V)) :
    AssocMap.get k (AssocMap.insert k' v m) = AssocMap.get k m := by
  induction m with
  | nil => simp [AssocMap.get, AssocMap.insert, hne]
  | cons e rest ih =>
      obtain ⟨k'', v''⟩ := e
      by_cases h : k'' = k' <;>
        by_cases h' : k'' = k <;>
          simp_all [AssocMap.get, AssocMap.insert]

theorem AssocMap.countKey_cons_self {K V : Type} [DecidableEq K]
    (k : K) (v : V) (m : List (K × V)) :
    AssocMap.countKey k ((k, v) :: m) = AssocMap.countKey k m + 1 := by
  simp [AssocMap.countKey, List.filter_cons]

theorem AssocMap.countKey_cons_ne {K V : Type} [DecidableEq K]
    {k k' : K} (h : k' ≠ k) (v : V) (m : List (K × V)) :
    AssocMap.countKey k ((k', v) :: m) = AssocMap.countKey k m := by
  simp [AssocMap.countKey, List.filter_cons, h]

theorem AssocMap.countKey_insert_self {K V : Type} [DecidableEq K]
    (k : K) (v : V) (m : List (K × V)) (hm : AssocMap.countKey k m ≤ 1) :
    AssocMap.countKey k (AssocMap.insert k v m) = 1 := by
  induction m with
  | nil => simp [AssocMap.countKey, AssocMap.insert]
  | cons e rest ih =>
      obtain ⟨k', v'⟩ := e
      by_cases h : k' = k
      · subst h
        rw [show AssocMap.insert k' v ((k', v') :: rest) = (k', v) :: rest by
          simp [AssocMap.insert]]
        rw [AssocMap.countKey_cons_self] at hm ⊢
        omega
      · rw [show AssocMap.insert k v ((k', v') :: rest)
            = (k', v') :: AssocMap.insert k v rest by simp [AssocMap.insert, h]]
        rw [AssocMap.countKey_cons_ne h] at hm ⊢
        exact ih hm

/-! ## `AssetCache` (asset_cache.rs)

```rust
pub struct AssetCache {
    assets: Arc<Mutex<HashMap<(TypeId, u64), Shared<Task<Box<dyn Any>>>>>>,
}
```

The map key is the pair `(TypeId::of::<A>(), hash)` where `hash` is the
`DefaultHasher` digest of the asset's `Source` value.  The asset kind `A`
is embedded as a record carrying the `TypeId` (a natural number tagging
the kind) and the kind's source-hash function; the type-erased stored
handle is a type parameter `V`. -/

/-- An asset kind `A`: its `TypeId` together with the `DefaultHasher`
digest function of its `Source` type `σ` (64-bit, embedded as `ℕ`). -/
structure AssetKind (σ : Type) where
  typeId : ℕ
  hashSource : σ → ℕ

/-- The state of `AssetCache.assets`: a map from `(TypeId, u64)` to the
type-erased shared task handle. -/
def AssetCache (V : Type) : Type := List ((ℕ × ℕ) × V)

/--
```rust
pub fn get<A: Asset>(&self, source: &A::Source) -> Option<&AssetFetchTask<A>> {
    let mut hasher = DefaultHasher::new();
    source.hash(&mut hasher);
    let hash = hasher.finish();
    self.assets.lock().get(&(TypeId::of::<A>(), hash))
}
```
-/
def AssetCache.get {σ V : Type} (A : AssetKind σ) (cache : AssetCache V)
    (source : σ) : Option V :=
  AssocMap.get (A.typeId, A.hashSource source) cache

/--
```rust
pub fn insert<A: Asset>(&mut self, source: A::Source, task: AssetFetchTask<A>) {
    let mut hasher = DefaultHasher::new();
    source.hash(&mut hasher);
    let hash = hasher.finish();
    self.assets.lock().insert((TypeId::of::<A>(), hash), task);
}
```
-/
def AssetCache.insert {σ V : Type} (A : AssetKind σ) (cache : AssetCache V)
    (source : σ) (task : V) : AssetCache V :=
  AssocMap.insert (A.typeId, A.hashSource source) task cache

end Gpui

namespace Gpui

/-- C3: inserting under two distinct kinds with colliding source hashes
leaves both entries independently retrievable. -/
theorem assetCache_kind_isolation {σA σB V : Type}
    (A : AssetKind σA) (B : AssetKind σB)
    (hkind : A.typeId ≠ B.typeId)
    (sA : σA) (sB : σB)
    (_hcollide : A.hashSource sA = B.hashSource sB)
    (vA vB : V) (cache : AssetCache V) :
    (AssetCache.get A (AssetCache.insert B (AssetCache.insert A cache sA vA) sB vB) sA
        = some vA
      ∧ AssetCache.get B (AssetCache.insert B (AssetCache.insert A cache sA vA) sB vB) sB
        = some vB)
      ∧ (vA ≠ vB →
        AssetCache.get A (AssetCache.insert B (AssetCache.insert A cache sA vA) sB vB) sA
          ≠ some vB) := by
  have hkey : ((B.typeId, B.hashSource sB) : ℕ × ℕ) ≠ (A.typeId, A.hashSource sA) := by
    intro h
    exact hkind (congrArg Prod.fst h).symm
  constructor
  · constructor
    · unfold AssetCache.get AssetCache.insert
      rw [AssocMap.get_insert_ne hkey, AssocMap.get_insert_self]
    · unfold AssetCache.get AssetCache.insert
      rw [AssocMap.get_insert_self]
  · intro hne hcontra
    unfold AssetCache.get AssetCache.insert at hcontra
    rw [AssocMap.get_insert_ne hkey, AssocMap.get_insert_self] at hcontra
    exact hne (Option.some.inj hcontra)

/-- Witness for `assetCache_kind_isolation` at concrete kinds and sources. -/
theorem assetCache_kind_isolation_witness :
    ((AssetCache.get ⟨0, fun _ : Unit => 42⟩
        (AssetCache.insert ⟨1, fun _ : Unit => 42⟩
          (AssetCache.insert ⟨0, fun _ : Unit => 42⟩ ([] : AssetCache ℕ) () 10) () 20) ()
        = some 10
      ∧ AssetCache.get ⟨1, fun _ : Unit => 42⟩
        (AssetCache.insert ⟨1, fun _ : Unit => 42⟩
          (AssetCache.insert ⟨0, fun _ : Unit => 42⟩ ([] : AssetCache ℕ) () 10) () 20) ()
        = some 20)
      ∧ ((10 : ℕ) ≠ 20 →
        AssetCache.get ⟨0, fun _ : Unit => 42⟩
          (AssetCache.insert ⟨1, fun _ : Unit => 42⟩
            (AssetCache.insert ⟨0, fun _ : Unit => 42⟩ ([] : AssetCache ℕ) () 10) () 20) ()
          ≠ some 20)) :=
  assetCache_kind_isolation ⟨0, fun _ => 42⟩ ⟨1, fun _ => 42⟩
    (by decide) () () rfl 10 20 []

/-- C8: under one `(kind, hash(source))` key, `get` after two `insert`s
returns the last handle, `get` after one `insert` returns that handle, and
the map holds exactly one entry for the key. -/
theorem assetCache_insert_last_writer_wins {σ V : Type}
    (A : AssetKind σ) (source : σ) (h1 h2 : V) (cache : AssetCache V)
    (hm : AssocMap.countKey (A.typeId, A.hashSource source) cache ≤ 1) :
    AssetCache.get A (AssetCache.insert A (AssetCache.insert A cache source h1) source h2) source
        = some h2
      ∧ AssocMap.countKey (A.typeId, A.hashSource source)
          (AssetCache.insert A (AssetCache.insert A cache source h1) source h2) = 1
      ∧ AssetCache.get A (AssetCache.insert A cache source h1) source = some h1 := by
  refine ⟨?_, ?_, ?_⟩
  · unfold AssetCache.get AssetCache.insert
    exact AssocMap.get_insert_self _ _ _
  · unfold AssetCache.insert
    apply AssocMap.countKey_insert_self
    exact le_of_eq (AssocMap.countKey_insert_self _ _ _ hm)
  · unfold AssetCache.get AssetCache.insert
    exact AssocMap.get_insert_self _ _ _

/-- Witness for `assetCache_insert_last_writer_wins` on an empty cache. -/
theorem assetCache_insert_last_writer_wins_witness :
    AssetCache.get ⟨0, fun _ : Unit => 7⟩
        (AssetCache.insert ⟨0, fun _ : Unit => 7⟩
          (AssetCache.insert ⟨0, fun _ : Unit => 7⟩ ([] : AssetCache ℕ) () 1) () 2) ()
        = some 2
      ∧ AssocMap.countKey ((0 : ℕ), (7 : ℕ))
          (AssetCache.insert ⟨0, fun _ : Unit => 7⟩
            (AssetCache.insert ⟨0, fun _ : Unit => 7⟩ ([] : AssetCache ℕ) () 1) () 2) = 1
      ∧ AssetCache.get ⟨0, fun _ : Unit => 7⟩
          (AssetCache.insert ⟨0, fun _ : Unit => 7⟩ ([] : AssetCache ℕ) () 1) () = some 1 :=
  assetCache_insert_last_writer_wins ⟨0, fun _ => 7⟩ () 1 2 [] (by decide)

end Gpui

namespace Gpui

/-! ## Object-fit geometry (elements/img.rs, `ObjectFit::get_bounds`)

`Pixels` (an `f32` wrapper) is embedded as `ℚ`; all claim inputs are small
integers on which `f32` arithmetic is exact.  `DevicePixels` dimensions are
embedded as `ℕ` and converted to `ℚ` exactly as the source converts
`DevicePixels → u32 → Pixels`. -/

/-- `Point<T>` from the geometry module. -/
structure Point (α : Type) where
  x : α
  y : α
deriving DecidableEq

/-- `Size<T>` from the geometry module. -/
structure Size (α : Type) where
  width : α
  height : α
deriving DecidableEq

/-- `Bounds<T>` from the geometry module: an origin and a size. -/
structure Bounds (α : Type) where
  origin : Point α
  size : Size α
deriving DecidableEq

/-- `ObjectFit` from elements/img.rs. -/
inductive ObjectFit where
  | fill
  | contain
  | cover
  | none
deriving DecidableEq

/--
```rust
pub fn get_bounds(&self, bounds: Bounds<Pixels>, image_size: Size<DevicePixels>)
    -> Bounds<Pixels> {
    let image_size = image_size.map(|dimension| Pixels::from(u32::from(dimension)));
    let image_ratio = image_size.width / image_size.height;
    let bounds_ratio = bounds.size.width / bounds.size.height;
    match self { ... }
}
```
-/
def ObjectFit.get_bounds (fit : ObjectFit) (bounds : Bounds ℚ)
    (image_size : Size ℕ) : Bounds ℚ :=
  let image_size : Size ℚ := ⟨(image_size.width : ℚ), (image_size.height : ℚ)⟩
  let image_ratio := image_size.width / image_size.height
  let bounds_ratio := bounds.size.width / bounds.size.height
  match fit with
  | .fill => bounds
  | .contain =>
      let new_size :=
        if bounds_ratio > image_ratio then
          Size.mk (image_size.width * (bounds.size.height / image_size.height))
            bounds.size.height
        else
          Size.mk bounds.size.width
            (image_size.height * (bounds.size.width / image_size.width))
      { origin :=
          ⟨bounds.origin.x + (bounds.size.width - new_size.width) / 2,
            bounds.origin.y + (bounds.size.height - new_size.height) / 2⟩,
        size := new_size }
  | .cover =>
      let new_size :=
        if bounds_ratio > image_ratio then
          Size.mk bounds.size.width
            (image_size.height * (bounds.size.width / image_size.width))
        else
          Size.mk (image_size.width * (bounds.size.height / image_size.height))
            bounds.size.height
      { origin :=
          ⟨bounds.origin.x + (bounds.size.width - new_size.width) / 2,
            bounds.origin.y + (bounds.size.height - new_size.height) / 2⟩,
        size := new_size }
  | .none => { origin := bounds.origin, size := image_size }

end Gpui

namespace Gpui

/-- C1 counterexample: for `Cover` with box 100×200 at origin (0,0) and a
100×100 image, `get_bounds` does not return origin (0, -50); the scaled
200×200 image overflows horizontally, so the origin is (-50, 0). -/
theorem objectFit_cover_claimed_bounds_false :
    ObjectFit.cover.get_bounds ⟨⟨0, 0⟩, ⟨100, 200⟩⟩ ⟨100, 100⟩
      ≠ ⟨⟨0, -50⟩, ⟨200, 200⟩⟩ := by
  simp only [ObjectFit.get_bounds]
  norm_num [Bounds.mk.injEq, Point.mk.injEq, Size.mk.injEq]

/-- C1 (amended): for `Cover` with box 100×200 at origin (0,0) and a
100×100 image, `get_bounds` returns a 200×200 rectangle, centered, whose
origin relative to the box is (-50, 0). -/
theorem objectFit_cover_100x200 :
    ObjectFit.cover.get_bounds ⟨⟨0, 0⟩, ⟨100, 200⟩⟩ ⟨100, 100⟩
      = ⟨⟨-50, 0⟩, ⟨200, 200⟩⟩ := by
  simp only [ObjectFit.get_bounds]
  norm_num [Bounds.mk.injEq, Point.mk.injEq, Size.mk.injEq]

end Gpui

namespace Gpui

/-- C9: for `Contain` with box 200×100 at origin (0,0) and a 100×100 image,
`get_bounds` returns a 100×100 rectangle centered at box-relative origin
(50, 0); and in general (positive box and image dimensions) `Contain`
scales uniformly, fits entirely within the box, centers on both axes, and
chooses the limiting axis by comparing box aspect ratio > image aspect
ratio. -/
theorem objectFit_contain_correct :
    ObjectFit.contain.get_bounds ⟨⟨0, 0⟩, ⟨200, 100⟩⟩ ⟨100, 100⟩
        = ⟨⟨50, 0⟩, ⟨100, 100⟩⟩
      ∧ ∀ (b : Bounds ℚ) (iw ih : ℕ), 0 < iw → 0 < ih →
          0 < b.size.width → 0 < b.size.height →
          ∀ r : Bounds ℚ, r = ObjectFit.contain.get_bounds b ⟨iw, ih⟩ →
            (r.origin.x + r.size.width / 2 = b.origin.x + b.size.width / 2
              ∧ r.origin.y + r.size.height / 2 = b.origin.y + b.size.height / 2)
            ∧ (r.size.width ≤ b.size.width ∧ r.size.height ≤ b.size.height)
            ∧ r.size.width * (ih : ℚ) = r.size.height * (iw : ℚ)
            ∧ (if b.size.width / b.size.height > (iw : ℚ) / (ih : ℚ)
                then r.size.height = b.size.height
                else r.size.width = b.size.width) := by
  constructor
  · simp only [ObjectFit.get_bounds]
    norm_num [Bounds.mk.injEq, Point.mk.injEq, Size.mk.injEq]
  · intro b iw ih hiw hih hbw hbh r hr
    have hiwQ : (0 : ℚ) < (iw : ℚ) := by exact_mod_cast hiw
    have hihQ : (0 : ℚ) < (ih : ℚ) := by exact_mod_cast hih
    by_cases hc : b.size.width / b.size.height > (iw : ℚ) / (ih : ℚ)
    · have hr' : r = ⟨⟨b.origin.x + (b.size.width - (iw : ℚ)
            * (b.size.height / (ih : ℚ))) / 2,
          b.origin.y + (b.size.height - b.size.height) / 2⟩,
          ⟨(iw : ℚ) * (b.size.height / (ih : ℚ)), b.size.height⟩⟩ := by
        rw [hr]
        simp only [ObjectFit.get_bounds, if_pos hc]
      subst hr'
      have hcross : (iw : ℚ) * b.size.height < b.size.width * (ih : ℚ) :=
        (div_lt_div_iff hihQ hbh).mp hc
      refine ⟨⟨by ring, by ring⟩, ⟨?_, le_refl _⟩, ?_, ?_⟩
      · rw [mul_div_assoc', div_le_iff hihQ]
        linarith
      · field_simp
        ring
      · rw [if_pos hc]
    · have hr' : r = ⟨⟨b.origin.x + (b.size.width - b.size.width) / 2,
          b.origin.y + (b.size.height - (ih : ℚ)
            * (b.size.width / (iw : ℚ))) / 2⟩,
          ⟨b.size.width, (ih : ℚ) * (b.size.width / (iw : ℚ))⟩⟩ := by
        rw [hr]
        simp only [ObjectFit.get_bounds, if_neg hc]
      subst hr'
      have hle : b.size.width / b.size.height ≤ (iw : ℚ) / (ih : ℚ) :=
        le_of_not_lt hc
      have hcross : b.size.width * (ih : ℚ) ≤ (iw : ℚ) * b.size.height :=
        (div_le_div_iff hbh hihQ).mp hle
      refine ⟨⟨by ring, by ring⟩, ⟨le_refl _, ?_⟩, ?_, ?_⟩
      · rw [mul_div_assoc', div_le_iff hiwQ]
        linarith
      · field_simp
        ring
      · rw [if_neg hc]

end Gpui

namespace Gpui

/-- Witness for `objectFit_contain_correct` at box 200×100, image 100×100. -/
theorem objectFit_contain_correct_witness :
    ((ObjectFit.contain.get_bounds ⟨⟨0, 0⟩, ⟨200, 100⟩⟩ ⟨100, 100⟩).origin.x
          + (ObjectFit.contain.get_bounds ⟨⟨0, 0⟩, ⟨200, 100⟩⟩ ⟨100, 100⟩).size.width / 2
        = (0 : ℚ) + 200 / 2
      ∧ (ObjectFit.contain.get_bounds ⟨⟨0, 0⟩, ⟨200, 100⟩⟩ ⟨100, 100⟩).origin.y
          + (ObjectFit.contain.get_bounds ⟨⟨0, 0⟩, ⟨200, 100⟩⟩ ⟨100, 100⟩).size.height / 2
        = (0 : ℚ) + 100 / 2)
    ∧ ((ObjectFit.contain.get_bounds ⟨⟨0, 0⟩, ⟨200, 100⟩⟩ ⟨100, 100⟩).size.width ≤ (200 : ℚ)
      ∧ (ObjectFit.contain.get_bounds ⟨⟨0, 0⟩, ⟨200, 100⟩⟩ ⟨100, 100⟩).size.height ≤ (100 : ℚ))
    ∧ (ObjectFit.contain.get_bounds ⟨⟨0, 0⟩, ⟨200, 100⟩⟩ ⟨100, 100⟩).size.width * ((100 : ℕ) : ℚ)
        = (ObjectFit.contain.get_bounds ⟨⟨0, 0⟩, ⟨200, 100⟩⟩ ⟨100, 100⟩).size.height * ((100 : ℕ) : ℚ)
    ∧ (if (200 : ℚ) / (100 : ℚ) > ((100 : ℕ) : ℚ) / ((100 : ℕ) : ℚ)
        then (ObjectFit.contain.get_bounds ⟨⟨0, 0⟩, ⟨200, 100⟩⟩ ⟨100, 100⟩).size.height = (100 : ℚ)
        else (ObjectFit.contain.get_bounds ⟨⟨0, 0⟩, ⟨200, 100⟩⟩ ⟨100, 100⟩).size.width = (200 : ℚ)) :=
  objectFit_contain_correct.2 ⟨⟨0, 0⟩, ⟨200, 100⟩⟩ 100 100
    (by norm_num) (by norm_num) (by norm_num) (by norm_num)
    (ObjectFit.contain.get_bounds ⟨⟨0, 0⟩, ⟨200, 100⟩⟩ ⟨100, 100⟩) rfl

end Gpui

namespace Gpui

/-! ## Shared data model for the producers

Byte buffers are `List ℕ`; opaque external error values (I/O errors,
`http::Error`, `image::ImageError`, `usvg::Error`) are embedded as `ℕ`
tags; pixel data is 8-bit RGBA. -/

/-- `UriOrPath` (asset_cache.rs / image_cache.rs): the cache key model. -/
inductive UriOrPath where
  | uri (u : String)
  | path (p : String)
deriving DecidableEq

/-- A byte buffer (`Vec<u8>`). -/
abbrev Bytes := List ℕ

/-- An 8-bit RGBA pixel (one `u8` per channel). -/
structure Rgba8 where
  r : Fin 256
  g : Fin 256
  b : Fin 256
  a : Fin 256
deriving DecidableEq

/-- `ImageData::new(data: RgbaImage)`: an owned 8-bit RGBA pixel buffer. -/
structure ImageData where
  width : ℕ
  height : ℕ
  pixels : List Rgba8
deriving DecidableEq

/-- A parsed `resvg::usvg::Tree`; only its intrinsic size
(`tree.size().width()` / `.height()`, `f32` embedded as `ℚ`) is observed
by this excerpt. -/
structure UsvgTree where
  width : ℚ
  height : ℚ
deriving DecidableEq

/-- An HTTP response after `read_to_end`: status code and full body. -/
structure HttpResponse where
  status : ℕ
  body : Bytes
deriving DecidableEq

/-- `http::StatusCode::is_success()`: 2xx status codes. -/
def isSuccessStatus (s : ℕ) : Bool := 200 ≤ s && s ≤ 299

/-- `ImageCacheError` (elements/img.rs / image_cache.rs). Shared-ownership
error payloads are embedded as opaque `ℕ` tags. -/
inductive ImageCacheError where
  | client (e : ℕ)
  | io (e : ℕ)
  | badStatus (status : ℕ) (body : String)
  | image (e : ℕ)
  | usvg (e : ℕ)
deriving DecidableEq

/-- `RasterOrVector` (elements/img.rs). -/
inductive RasterOrVector where
  | raster (data : ImageData)
  | vector (data : UsvgTree) (id : ℕ)
deriving DecidableEq

/-- The external capabilities consumed by `RasterOrVector::load`:

* `fsRead` — `fs::read(path)`;
* `httpGet` — `client.get(uri, ().into(), true)` followed by
  `read_to_end` of the body; its error value is already an
  `ImageCacheError` (`From<http::Error>` for client failures,
  `From<std::io::Error>` for body-read failures);
* `guessFormat` — `image::guess_format(&bytes)`;
* `decodeRaster` — `image::load_from_memory_with_format(&bytes, format)?
  .into_rgba8()`: on success the result is by construction an 8-bit RGBA
  buffer (`ImageData`), whatever the source color depth/channel count;
* `parseSvg` — `resvg::usvg::Tree::from_data(&bytes, &Options::default(),
  svg_fontdb())`;
* `fromUtf8Lossy` — `String::from_utf8_lossy`;
* `hash` — `crate::hash(&source)`, the `DefaultHasher` digest used both
  for cache keys and for the vector content fingerprint `id`. -/
structure Env where
  fsRead : String → Except ℕ Bytes
  httpGet : String → Except ImageCacheError HttpResponse
  guessFormat : Bytes → Option ℕ
  decodeRaster : Bytes → ℕ → Except ℕ ImageData
  parseSvg : Bytes → Except ℕ UsvgTree
  fromUtf8Lossy : Bytes → String
  hash : UriOrPath → ℕ

/-- The `Output` type of the `RasterOrVector` asset kind:
`Result<Self, ImageCacheError>`. -/
abbrev RovOutput := Except ImageCacheError RasterOrVector

/-- The asset cache as seen by `RasterOrVector::load`: keyed by
`(TypeId::of::<RasterOrVector>(), hash(source))`, holding `Output`s. -/
abbrev RovCache := AssetCache RovOutput

/-- The opaque `TypeId::of::<RasterOrVector>()` tag. -/
def RasterOrVector.typeId : ℕ := 0

/-- The `RasterOrVector` asset kind: its `TypeId` tag and source hash. -/
def RasterOrVector.kind (env : Env) : AssetKind UriOrPath :=
  ⟨RasterOrVector.typeId, env.hash⟩

/-- The byte-acquisition step of `RasterOrVector::load`:

```rust
let bytes = match source.clone() {
    UriOrPath::Path(uri) => fs::read(uri.as_ref())?,
    UriOrPath::Uri(uri) => {
        let mut response = client.get(uri.as_ref(), ().into(), true).await?;
        let mut body = Vec::new();
        response.body_mut().read_to_end(&mut body).await?;
        if !response.status().is_success() {
            return Err(ImageCacheError::BadStatus {
                status: response.status(),
                body: String::from_utf8_lossy(&body).into_owned(),
            });
        }
        body
    }
};
```
-/
def RasterOrVector.acquireBytes (env : Env) (source : UriOrPath) :
    Except ImageCacheError Bytes :=
  match source with
  | .path p =>
      match env.fsRead p with
      | .ok bytes => .ok bytes
      | .error e => .error (.io e)
  | .uri u =>
      match env.httpGet u with
      | .error e => .error e
      | .ok response =>
          if !(isSuccessStatus response.status) then
            .error (.badStatus response.status (env.fromUtf8Lossy response.body))
          else
            .ok response.body

/-- The decode step of `RasterOrVector::load`:

```rust
let data = if let Ok(format) = image::guess_format(&bytes) {
    let data = image::load_from_memory_with_format(&bytes, format)?.into_rgba8();
    Self::Raster(Arc::new(ImageData::new(data)))
} else {
    let data = resvg::usvg::Tree::from_data(&bytes, &Options::default(), svg_fontdb())?;
    let id = hash(&source);
    Self::Vector { data: Arc::new(data), id }
};
```
-/
def RasterOrVector.decodeBytes (env : Env) (source : UriOrPath) (bytes : Bytes) :
    Except ImageCacheError RasterOrVector :=
  match env.guessFormat bytes with
  | some format =>
      match env.decodeRaster bytes format with
      | .ok data => .ok (.raster data)
      | .error e => .error (.image e)
  | none =>
      match env.parseSvg bytes with
      | .ok data => .ok (.vector data (env.hash source))
      | .error e => .error (.usvg e)

/-- `RasterOrVector::load` (elements/img.rs): cache probe, byte
acquisition, decode, publish.  The returned pair is the resolved `Output`
together with the asset-cache state after the run; `?`/`return Err(..)`
paths resolve without touching the cache, only the success path reaches
`asset_cache.insert::<Self>(source, Ok(data.clone()))`. -/
def RasterOrVector.load (env : Env) (cache : RovCache) (source : UriOrPath) :
    RovOutput × RovCache :=
  match AssetCache.get (RasterOrVector.kind env) cache source with
  | some asset => (asset, cache)
  | none =>
      match RasterOrVector.acquireBytes env source with
      | .error e => (.error e, cache)
      | .ok bytes =>
          match RasterOrVector.decodeBytes env source bytes with
          | .error e => (.error e, cache)
          | .ok data =>
              (.ok data,
                AssetCache.insert (RasterOrVector.kind env) cache source (.ok data))

end Gpui

namespace Gpui

/-! ## `ImageCache` (image_cache.rs)

`images: Arc<Mutex<HashMap<UriOrPath, FetchImageTask>>>` maps a source key
directly to a `Shared` task handle.  A `Shared` handle is embedded as the
numeric id of the spawned background task: `Shared::clone` copies the id,
and two handles observe the same eventual output iff their ids are equal.
Spawning (`cx.background_executor().spawn(..).shared()`) allocates a fresh
id. -/

/-- The mutable state behind `ImageCache`: the `images` map plus the id
the executor will give to the next spawned task. -/
structure ImageCacheState where
  images : List (UriOrPath × ℕ)
  nextTaskId : ℕ
deriving DecidableEq

/--
```rust
pub fn get(&self, uri_or_path: impl Into<UriOrPath>, cx: &AppContext) -> FetchImageTask {
    let uri_or_path = uri_or_path.into();
    let mut images = self.images.lock();
    match images.get(&uri_or_path) {
        Some(future) => future.clone(),
        None => {
            let future = cx.background_executor().spawn(..).shared();
            images.insert(uri_or_path, future.clone());
            future
        }
    }
}
```
Returns the task handle, the state after the call, and whether a new
background task was spawned. -/
def ImageCache.get (s : ImageCacheState) (uri_or_path : UriOrPath) :
    ℕ × ImageCacheState × Bool :=
  match AssocMap.get uri_or_path s.images with
  | some future => (future, s, false)
  | none =>
      let future := s.nextTaskId
      (future, ⟨AssocMap.insert uri_or_path future s.images, s.nextTaskId + 1⟩, true)

/-! ## `SvgRenderer` (svg_renderer.rs) -/

/-- `RenderSvgParams`: an asset path and a target `Size<DevicePixels>`. -/
structure RenderSvgParams where
  path : String
  size : Size ℕ
deriving DecidableEq

/-- Modelled from the spec: `Size::<DevicePixels>::is_zero` lives in the
geometry module, which is not part of this excerpt.  Per the spec the
target size is rejected when either dimension is zero ("target size
(0, h) or (w, 0) for any h, w must fail"). -/
def Size.isZero (s : Size ℕ) : Bool := s.width == 0 || s.height == 0

/-- `SvgSize` (svg_renderer.rs). -/
inductive SvgSize where
  | size (s : Size ℕ)

/-- A `tiny_skia::Pixmap`: dimensions fixed at allocation plus the pixel
contents, addressed by index; `pixels()` exposes `width * height`
premultiplied pixels. -/
structure Pixmap where
  width : ℕ
  height : ℕ
  data : ℕ → Rgba8

/-- `Pixmap::pixels()`: the `width * height` pixel slice. -/
def Pixmap.pixels (p : Pixmap) : List Rgba8 :=
  (List.range (p.width * p.height)).map p.data

/-- `tiny_skia::Pixmap::new(w, h)`: an all-transparent pixmap of the given
dimensions.  (The `None` case for a zero/oversized allocation is
`.unwrap()`ed — a panic — in the source and is outside this model.) -/
def Pixmap.new (width height : ℕ) : Pixmap :=
  ⟨width, height, fun _ => ⟨0, 0, 0, 0⟩⟩

/-- Rust `as u32` on a nonnegative finite `f32` (embedded `ℚ`):
truncation toward zero. -/
def ratToU32 (q : ℚ) : ℕ := q.floor.toNat

/-- The external capabilities of the SVG-only path:

* `assetLoad` — `self.asset_source.load(&params.path)`;
* `parseSvg` — `SvgRenderer::tree`, i.e. `usvg::Tree::from_data(..)`;
* `renderData` — the pixel contents produced by
  `resvg::render(&tree, Transform::from_scale(ratio, ratio), &mut pixmap.as_mut())`,
  which draws through a mutable view and cannot change the pixmap's
  dimensions. -/
structure SvgEnv where
  assetLoad : String → Except ℕ Bytes
  parseSvg : Bytes → Except ℕ UsvgTree
  renderData : UsvgTree → ℚ → ℕ → ℕ → (ℕ → Rgba8) → (ℕ → Rgba8)

/-- `resvg::render` into a pixmap: contents change, dimensions do not. -/
def SvgEnv.render (env : SvgEnv) (tree : UsvgTree) (ratio : ℚ) (pm : Pixmap) :
    Pixmap :=
  { pm with data := env.renderData tree ratio pm.width pm.height pm.data }

/-- The error of `SvgRenderer::render` (an `anyhow::Result` in the
source); the zero-size precondition violation carries its message. -/
inductive SvgRenderError where
  | zeroSize (msg : String)
  | assetLoad (e : ℕ)
  | usvg (e : ℕ)
deriving DecidableEq

/--
```rust
pub fn render_pixmap(&self, tree: &Tree, size: SvgSize) -> Result<Pixmap, usvg::Error> {
    let size = match size { SvgSize::Size(size) => size };
    let ratio = size.width.0 as f32 / tree.size().width();
    let mut pixmap = tiny_skia::Pixmap::new(
        (tree.size().width() * ratio) as u32,
        (tree.size().height() * ratio) as u32,
    ).unwrap();
    resvg::render(&tree, Transform::from_scale(ratio, ratio), &mut pixmap.as_mut());
    Ok(pixmap)
}
```
-/
def SvgRenderer.render_pixmap (env : SvgEnv) (tree : UsvgTree) (size : SvgSize) :
    Except ℕ Pixmap :=
  let size := match size with | SvgSize.size s => s
  let ratio := (size.width : ℚ) / tree.width
  let pixmap := Pixmap.new (ratToU32 (tree.width * ratio))
    (ratToU32 (tree.height * ratio))
  .ok (SvgEnv.render env tree ratio pixmap)

/--
```rust
pub fn render(&self, params: &RenderSvgParams) -> Result<Vec<u8>> {
    if params.size.is_zero() {
        return Err(anyhow!("can't render at a zero size"));
    }
    let bytes = self.asset_source.load(&params.path)?;
    let tree = self.tree(&bytes)?;
    let pixmap = self.render_pixmap(&tree, SvgSize::Size(params.size))?;
    let alpha_mask = pixmap.pixels().iter().map(|p| p.alpha()).collect::<Vec<_>>();
    Ok(alpha_mask)
}
```
-/
def SvgRenderer.render (env : SvgEnv) (params : RenderSvgParams) :
    Except SvgRenderError (List (Fin 256)) :=
  if Size.isZero params.size then
    .error (.zeroSize "can't render at a zero size")
  else
    match env.assetLoad params.path with
    | .error e => .error (.assetLoad e)
    | .ok bytes =>
        match env.parseSvg bytes with
        | .error e => .error (.usvg e)
        | .ok tree =>
            match SvgRenderer.render_pixmap env tree (SvgSize.size params.size) with
            | .error e => .error (.usvg e)
            | .ok pixmap => .ok (pixmap.pixels.map fun p => p.a)

end Gpui

namespace Gpui

/-! ## Concrete environments used by witnesses and counterexamples -/

/-- A 1×1 opaque-black decoded RGBA8 buffer. -/
def imgOk : ImageData := ⟨1, 1, [⟨0, 0, 0, 255⟩]⟩

/-- A parsed vector tree with intrinsic size 10×20. -/
def treeOk : UsvgTree := ⟨10, 20⟩

/-- An environment whose filesystem read fails with I/O error tag 7. -/
def envFsFail : Env :=
  { fsRead := fun _ => .error 7
  , httpGet := fun _ => .error (.client 3)
  , guessFormat := fun _ => none
  , decodeRaster := fun _ _ => .error 5
  , parseSvg := fun _ => .error 11
  , fromUtf8Lossy := fun _ => ""
  , hash := fun _ => 0 }

/-- An environment where reading a file yields the byte buffer `[1]`,
the format sniffer recognizes exactly the buffer `[1]` (as format tag 1),
raster decoding succeeds with `imgOk`, vector parsing succeeds with
`treeOk`, and HTTP GET answers status 404 with body `[72]` ("H"). -/
def envOk : Env :=
  { fsRead := fun _ => .ok [1]
  , httpGet := fun _ => .ok ⟨404, [72]⟩
  , guessFormat := fun bytes => if bytes = [1] then some 1 else none
  , decodeRaster := fun _ _ => .ok imgOk
  , parseSvg := fun _ => .ok treeOk
  , fromUtf8Lossy := fun _ => "H"
  , hash := fun _ => 9 }

/-- C2 counterexample: with `envFsFail`, the producer run for
`Path "a.png"` completes with an `Io` error, yet the asset cache is left
untouched — the completed error `Output` is *not* inserted, contradicting
the claim that every completed run (success or error) is cached. -/
theorem rasterOrVector_load_failure_not_cached :
    (RasterOrVector.load envFsFail [] (.path "a.png")).1 = .error (.io 7)
      ∧ (RasterOrVector.load envFsFail [] (.path "a.png")).2 = []
      ∧ AssetCache.get (RasterOrVector.kind envFsFail)
          (RasterOrVector.load envFsFail [] (.path "a.png")).2 (.path "a.png")
        = none :=
  ⟨rfl, rfl, rfl⟩

/-- C2 (amended): on a cache miss, only a run that completes successfully
inserts its `Output` (wrapped as `Ok`) under the same `(kind, source)` key
before resolving; a run that completes with an error resolves without
inserting, so a repeated request for the same failing source performs a
new fetch. -/
theorem rasterOrVector_load_publish (env : Env) (cache : RovCache)
    (source : UriOrPath)
    (hmiss : AssetCache.get (RasterOrVector.kind env) cache source = none) :
    (∀ data, (RasterOrVector.load env cache source).1 = .ok data →
        (RasterOrVector.load env cache source).2
            = AssetCache.insert (RasterOrVector.kind env) cache source (.ok data)
          ∧ AssetCache.get (RasterOrVector.kind env)
              (RasterOrVector.load env cache source).2 source = some (.ok data))
      ∧ ∀ e, (RasterOrVector.load env cache source).1 = .error e →
          (RasterOrVector.load env cache source).2 = cache := by
  unfold RasterOrVector.load
  rw [hmiss]
  cases hab : RasterOrVector.acquireBytes env source with
  | error e =>
      dsimp only
      exact ⟨fun data hdata => absurd hdata (by simp), fun e' _ => rfl⟩
  | ok bytes =>
      dsimp only
      cases hdb : RasterOrVector.decodeBytes env source bytes with
      | error e =>
          dsimp only
          exact ⟨fun data hdata => absurd hdata (by simp), fun e' _ => rfl⟩
      | ok data0 =>
          dsimp only
          refine ⟨fun data hdata => ?_, fun e' he' => absurd he' (by simp)⟩
          have hd : data0 = data := by
            simpa using hdata
          subst hd
          refine ⟨rfl, ?_⟩
          unfold AssetCache.get AssetCache.insert
          exact AssocMap.get_insert_self _ _ _

/-- Witness for `rasterOrVector_load_publish`: with `envOk` the run for
`Path "a.png"` succeeds and its `Ok` output is retrievable from the cache
it returned. -/
theorem rasterOrVector_load_publish_witness :
    (RasterOrVector.load envOk [] (.path "a.png")).2
        = AssetCache.insert (RasterOrVector.kind envOk) [] (.path "a.png")
            (.ok (.raster imgOk))
      ∧ AssetCache.get (RasterOrVector.kind envOk)
          (RasterOrVector.load envOk [] (.path "a.png")).2 (.path "a.png")
        = some (.ok (.raster imgOk)) :=
  (rasterOrVector_load_publish envOk [] (.path "a.png") rfl).1
    (.raster imgOk) rfl

end Gpui

namespace Gpui

/-- C6: format sniffing precedes vector parsing.  If a raster format is
recognized, the bytes are decoded (normalized to an 8-bit RGBA buffer,
`ImageData`, by `into_rgba8` regardless of source color depth) and the
`Raster` variant is produced, or decoding fails with a terminal `Image`
error — the SVG parser is never consulted; only when no raster format is
recognized is the buffer parsed as an SVG document, yielding the `Vector`
variant or a terminal `Usvg` error.  No branch yields an empty or
silently-ignored result. -/
theorem rasterOrVector_decode_sniff_priority (env : Env) (source : UriOrPath)
    (bytes : Bytes) :
    (∀ format data, env.guessFormat bytes = some format →
        env.decodeRaster bytes format = .ok data →
        RasterOrVector.decodeBytes env source bytes = .ok (.raster data))
      ∧ (∀ format e, env.guessFormat bytes = some format →
          env.decodeRaster bytes format = .error e →
          RasterOrVector.decodeBytes env source bytes = .error (.image e))
      ∧ (∀ data, env.guessFormat bytes = none →
          env.parseSvg bytes = .ok data →
          RasterOrVector.decodeBytes env source bytes
            = .ok (.vector data (env.hash source)))
      ∧ (∀ e, env.guessFormat bytes = none →
          env.parseSvg bytes = .error e →
          RasterOrVector.decodeBytes env source bytes = .error (.usvg e)) := by
  refine ⟨?_, ?_, ?_, ?_⟩
  · intro format data h1 h2
    unfold RasterOrVector.decodeBytes
    rw [h1]
    dsimp only
    rw [h2]
  · intro format e h1 h2
    unfold RasterOrVector.decodeBytes
    rw [h1]
    dsimp only
    rw [h2]
  · intro data h1 h2
    unfold RasterOrVector.decodeBytes
    rw [h1]
    dsimp only
    rw [h2]
  · intro e h1 h2
    unfold RasterOrVector.decodeBytes
    rw [h1]
    dsimp only
    rw [h2]

/-- Witness for `rasterOrVector_decode_sniff_priority` with `envOk`: the
buffer `[1]` is sniffed as raster and decoded to the RGBA8 `imgOk`; the
buffer `[2]` is not recognized and is parsed as a vector document with
fingerprint 9. -/
theorem rasterOrVector_decode_sniff_priority_witness :
    RasterOrVector.decodeBytes envOk (.path "a.png") [1] = .ok (.raster imgOk)
      ∧ RasterOrVector.decodeBytes envOk (.path "a.png") [2]
        = .ok (.vector treeOk 9) :=
  ⟨(rasterOrVector_decode_sniff_priority envOk (.path "a.png") [1]).1
      1 imgOk rfl rfl,
    (rasterOrVector_decode_sniff_priority envOk (.path "a.png") [2]).2.2.1
      treeOk rfl rfl⟩

/-- C7: a `Uri` producer run whose HTTP response has a non-success status
resolves to `BadStatus` carrying exactly that status code and the
UTF-8-lossy decoding of the full response body; no decoded asset is
produced and the cache is left unchanged. -/
theorem rasterOrVector_load_bad_status (env : Env) (cache : RovCache)
    (u : String) (resp : HttpResponse)
    (hmiss : AssetCache.get (RasterOrVector.kind env) cache (.uri u) = none)
    (hget : env.httpGet u = .ok resp)
    (hstatus : isSuccessStatus resp.status = false) :
    RasterOrVector.load env cache (.uri u)
      = (.error (.badStatus resp.status (env.fromUtf8Lossy resp.body)), cache) := by
  unfold RasterOrVector.load
  rw [hmiss]
  have hab : RasterOrVector.acquireBytes env (.uri u)
      = .error (.badStatus resp.status (env.fromUtf8Lossy resp.body)) := by
    unfold RasterOrVector.acquireBytes
    dsimp only
    rw [hget]
    dsimp only
    simp [hstatus]
  rw [hab]

/-- Witness for `rasterOrVector_load_bad_status`: `envOk` answers status
404 with body `[72]`, whose lossy decoding is `"H"`. -/
theorem rasterOrVector_load_bad_status_witness :
    RasterOrVector.load envOk [] (.uri "http://example.com/x.png")
      = (.error (.badStatus 404 "H"), []) :=
  rasterOrVector_load_bad_status envOk [] "http://example.com/x.png"
    ⟨404, [72]⟩ rfl rfl rfl

end Gpui


namespace Gpui

/-- The cache state used by the C4 witness: one settled success entry for
`Path "a.png"`, as published by a completed `RasterOrVector` run. -/
def cacheWithEntry : RovCache :=
  AssetCache.insert (RasterOrVector.kind envOk) [] (.path "a.png")
    (.ok (.raster imgOk))

/-- C4: if the cache already holds an entry for a key, a get/load returns
a clone of the existing shared handle and schedules no new work.  For
`ImageCache::get`: a lookup hit returns the stored handle with unchanged
state and no spawn; after one call with key `k`, any call with an equal
key `k2` returns the same shared task, leaves the state unchanged, spawns
nothing, and any output assignment gives both observers equal outputs;
moreover a stored entry is preserved by any later call with any key, so
every subsequent call with key `k` keeps returning the same handle.
For `RasterOrVector::load`: a cache hit returns the cached `Output` with
the cache unchanged (no fetch/decode is consulted). -/
theorem imageCache_get_dedup (s : ImageCacheState) (k k2 : UriOrPath)
    (Output : Type) (taskOutput : ℕ → Output) (hk : k2 = k)
    (env : Env) (cache : RovCache) (rsource : UriOrPath) :
    (∀ t, AssocMap.get k s.images = some t → ImageCache.get s k = (t, s, false))
      ∧ (ImageCache.get (ImageCache.get s k).2.1 k2).1 = (ImageCache.get s k).1
      ∧ (ImageCache.get (ImageCache.get s k).2.1 k2).2.1 = (ImageCache.get s k).2.1
      ∧ (ImageCache.get (ImageCache.get s k).2.1 k2).2.2 = false
      ∧ taskOutput (ImageCache.get (ImageCache.get s k).2.1 k2).1
          = taskOutput (ImageCache.get s k).1
      ∧ (∀ asset, AssetCache.get (RasterOrVector.kind env) cache rsource = some asset →
          RasterOrVector.load env cache rsource = (asset, cache))
      ∧ ∀ j t, AssocMap.get k s.images = some t →
          AssocMap.get k ((ImageCache.get s j).2.1).images = some t := by
  rw [hk]
  have hfirst : ∀ t, AssocMap.get k s.images = some t →
      ImageCache.get s k = (t, s, false) := by
    intro t ht
    unfold ImageCache.get
    rw [ht]
  have hsecond : (ImageCache.get (ImageCache.get s k).2.1 k).1
        = (ImageCache.get s k).1
      ∧ (ImageCache.get (ImageCache.get s k).2.1 k).2.1
        = (ImageCache.get s k).2.1
      ∧ (ImageCache.get (ImageCache.get s k).2.1 k).2.2 = false := by
    cases hlook : AssocMap.get k s.images with
    | some t =>
        have h1 : ImageCache.get s k = (t, s, false) := hfirst t hlook
        rw [h1]
        dsimp only
        rw [h1]
        exact ⟨rfl, rfl, rfl⟩
    | none =>
        have h1 : ImageCache.get s k
            = (s.nextTaskId,
                ⟨AssocMap.insert k s.nextTaskId s.images, s.nextTaskId + 1⟩,
                true) := by
          unfold ImageCache.get
          rw [hlook]
        rw [h1]
        dsimp only
        have h2 : ImageCache.get
              ⟨AssocMap.insert k s.nextTaskId s.images, s.nextTaskId + 1⟩ k
            = (s.nextTaskId,
                ⟨AssocMap.insert k s.nextTaskId s.images, s.nextTaskId + 1⟩,
                false) := by
          unfold ImageCache.get
          dsimp only
          rw [AssocMap.get_insert_self]
        rw [h2]
        exact ⟨rfl, rfl, rfl⟩
  refine ⟨hfirst, hsecond.1, hsecond.2.1, hsecond.2.2,
    congrArg taskOutput hsecond.1, ?_, ?_⟩
  · intro asset hasset
    unfold RasterOrVector.load
    rw [hasset]
  · intro j t ht
    cases hj : AssocMap.get j s.images with
    | some t2 =>
        have hgj : ImageCache.get s j = (t2, s, false) := by
          unfold ImageCache.get
          rw [hj]
        rw [hgj]
        exact ht
    | none =>
        have hgj : ImageCache.get s j
            = (s.nextTaskId,
                ⟨AssocMap.insert j s.nextTaskId s.images, s.nextTaskId + 1⟩,
                true) := by
          unfold ImageCache.get
          rw [hj]
        rw [hgj]
        dsimp only
        have hjk : j ≠ k := by
          intro hjk
          subst hjk
          rw [hj] at ht
          exact Option.noConfusion ht
        rw [AssocMap.get_insert_ne hjk]
        exact ht

end Gpui

namespace Gpui

/-- Witness for `imageCache_get_dedup`: starting from the empty image
cache, a second call with the same key returns the same shared task, and
a `RasterOrVector` probe on a settled cache entry returns it unchanged. -/
theorem imageCache_get_dedup_witness :
    (ImageCache.get (ImageCache.get ⟨[], 0⟩ (.uri "k")).2.1 (.uri "k")).1
        = (ImageCache.get ⟨[], 0⟩ (.uri "k")).1
      ∧ RasterOrVector.load envOk cacheWithEntry (.path "a.png")
        = (.ok (.raster imgOk), cacheWithEntry) :=
  ⟨(imageCache_get_dedup ⟨[], 0⟩ (.uri "k") (.uri "k") ℕ id rfl
      envOk cacheWithEntry (.path "a.png")).2.1,
    (imageCache_get_dedup ⟨[], 0⟩ (.uri "k") (.uri "k") ℕ id rfl
      envOk cacheWithEntry (.path "a.png")).2.2.2.2.2.1
      (.ok (.raster imgOk)) rfl⟩

end Gpui

namespace Gpui

/-- An SVG-path environment whose asset source yields `[3]` and whose
parser yields `treeOk` (intrinsic size 10×20); rendering keeps the pixel
contents unchanged. -/
def svgEnvOk : SvgEnv :=
  { assetLoad := fun _ => .ok [3]
  , parseSvg := fun _ => .ok treeOk
  , renderData := fun _ _ _ _ d => d }

/-- An SVG-path environment whose asset source and parser both fail. -/
def svgEnvAlt : SvgEnv :=
  { assetLoad := fun _ => .error 1
  , parseSvg := fun _ => .error 2
  , renderData := fun _ _ _ _ d => d }

/-- C5: a render target with zero width or zero height fails immediately
with the descriptive zero-size error, for every environment — in
particular the result does not depend on the asset source, so no byte
fetch is attempted and the parse/rasterize stage is never reached. -/
theorem svgRenderer_render_zero_size (env env' : SvgEnv)
    (params : RenderSvgParams)
    (h : params.size.width = 0 ∨ params.size.height = 0) :
    SvgRenderer.render env params
        = .error (.zeroSize "can't render at a zero size")
      ∧ SvgRenderer.render env params = SvgRenderer.render env' params := by
  have hz : Size.isZero params.size = true := by
    rcases h with h | h <;> simp [Size.isZero, h]
  have hrender : ∀ e : SvgEnv, SvgRenderer.render e params
      = .error (.zeroSize "can't render at a zero size") := by
    intro e
    unfold SvgRenderer.render
    rw [hz]
    simp
  exact ⟨hrender env, (hrender env).trans (hrender env').symm⟩

/-- Witness for `svgRenderer_render_zero_size` at target size (0, 5). -/
theorem svgRenderer_render_zero_size_witness :
    SvgRenderer.render svgEnvOk ⟨"icon", ⟨0, 5⟩⟩
        = .error (.zeroSize "can't render at a zero size")
      ∧ SvgRenderer.render svgEnvOk ⟨"icon", ⟨0, 5⟩⟩
        = SvgRenderer.render svgEnvAlt ⟨"icon", ⟨0, 5⟩⟩ :=
  svgRenderer_render_zero_size svgEnvOk svgEnvAlt ⟨"icon", ⟨0, 5⟩⟩ (Or.inl rfl)

end Gpui

namespace Gpui

/-- C10: in the SVG-only path, the pixmap dimensions are derived solely
from the target width and the tree's intrinsic aspect ratio — the scale
ratio is target width ÷ tree width, the pixmap is allocated at
(tree width × ratio, tree height × ratio) truncated to integers, the
target height is ignored after the zero-size check, and the alpha mask
has exactly one byte per pixel of that derived pixmap size. -/
theorem svgRenderer_render_pixmap_width_driven (env : SvgEnv)
    (tree : UsvgTree) (w h h' : ℕ) (ps : String) :
    (∀ pm, SvgRenderer.render_pixmap env tree (SvgSize.size ⟨w, h⟩) = .ok pm →
        pm.width = ratToU32 (tree.width * ((w : ℚ) / tree.width))
          ∧ pm.height = ratToU32 (tree.height * ((w : ℚ) / tree.width))
          ∧ pm.pixels.length = pm.width * pm.height)
      ∧ SvgRenderer.render_pixmap env tree (SvgSize.size ⟨w, h⟩)
          = SvgRenderer.render_pixmap env tree (SvgSize.size ⟨w, h'⟩)
      ∧ (w ≠ 0 → h ≠ 0 → h' ≠ 0 →
          SvgRenderer.render env ⟨ps, ⟨w, h⟩⟩ = SvgRenderer.render env ⟨ps, ⟨w, h'⟩⟩)
      ∧ ∀ bytes tree2, w ≠ 0 → h ≠ 0 →
          env.assetLoad ps = .ok bytes → env.parseSvg bytes = .ok tree2 →
          (SvgRenderer.render env ⟨ps, ⟨w, h⟩⟩).toOption.map List.length
            = some (ratToU32 (tree2.width * ((w : ℚ) / tree2.width))
                * ratToU32 (tree2.height * ((w : ℚ) / tree2.width))) := by
  refine ⟨?_, rfl, ?_, ?_⟩
  · intro pm hpm
    unfold SvgRenderer.render_pixmap at hpm
    dsimp only at hpm
    have hpm' : pm = SvgEnv.render env tree ((w : ℚ) / tree.width)
        (Pixmap.new (ratToU32 (tree.width * ((w : ℚ) / tree.width)))
          (ratToU32 (tree.height * ((w : ℚ) / tree.width)))) :=
      (Except.ok.inj hpm).symm
    subst hpm'
    exact ⟨rfl, rfl, by simp [Pixmap.pixels]⟩
  · intro hw hh hh'
    have hz1 : Size.isZero ⟨w, h⟩ = false := by simp [Size.isZero, hw, hh]
    have hz2 : Size.isZero ⟨w, h'⟩ = false := by simp [Size.isZero, hw, hh']
    unfold SvgRenderer.render
    dsimp only
    rw [hz1, hz2]
    rfl
  · intro bytes tree2 hw hh hload hparse
    have hz1 : Size.isZero ⟨w, h⟩ = false := by simp [Size.isZero, hw, hh]
    unfold SvgRenderer.render
    dsimp only
    rw [hz1]
    simp only [Bool.false_eq_true, if_false]
    rw [hload]
    dsimp only
    rw [hparse]
    dsimp only [SvgRenderer.render_pixmap]
    simp [Pixmap.pixels, SvgEnv.render, Pixmap.new, Except.toOption]

end Gpui

namespace Gpui

/-- Witness for `svgRenderer_render_pixmap_width_driven`: rendering
`"icon"` at requested size 5×7 against the 10×20 tree produces a mask
sized by the width-derived pixmap (5×10), not by the request. -/
theorem svgRenderer_render_pixmap_width_driven_witness :
    (SvgRenderer.render svgEnvOk ⟨"icon", ⟨5, 7⟩⟩).toOption.map List.length
      = some (ratToU32 (treeOk.width * (((5 : ℕ) : ℚ) / treeOk.width))
          * ratToU32 (treeOk.height * (((5 : ℕ) : ℚ) / treeOk.width))) :=
  (svgRenderer_render_pixmap_width_driven svgEnvOk treeOk 5 7 7 "icon").2.2.2
    [3] treeOk (by decide) (by decide) rfl rfl

end Gpui
